import Mathlib

/-
Verification of the input-controller core of wind-chant/christmas-tree
(src/components/InputController.tsx), embedded shallowly over ℚ.

Numbers are modelled as rationals: every coefficient in the source
(0.01, 0.02, 0.002, 0.94, 0.001) is an exact decimal, and the source
arithmetic on them is +, -, *, min, max, so ℚ is a faithful exact model.
The single exception is Math.hypot, which computes a real square root;
it is abstracted as a function parameter `hypot : ℚ → ℚ → ℚ` threaded
through the handlers, and theorems that depend on its concrete values
take the corresponding true facts about Math.hypot (e.g.
hypot (-100) 0 = 100) as hypotheses.

The JavaScript `Map` used for the pointer tracker is insertion-ordered:
`set` of an existing key updates the value in place keeping its position,
`set` of a new key appends, iteration (`values()`, `entries()`) follows
insertion order. It is embedded as an association list with exactly
those operations.
-/

namespace ChristmasTree

/-- A raw coordinate in host-surface pixel space (clientX/clientY). -/
structure Point where
  x : ℚ
  y : ℚ
deriving DecidableEq, Repr

/-- The fields of a host PointerEvent read by the controller. -/
structure PtrEvent where
  pointerId : Nat
  clientX : ℚ
  clientY : ℚ
  buttons : Nat
  pointerType : String
  movementX : ℚ
deriving DecidableEq, Repr

/-- Modelled from the spec: InteractionState, declared in the external
types module (outside the reviewed unit), is an enumeration toggled by
double-click between the two named variants CHAOS and FORMED. -/
inductive TreeState where
  | CHAOS
  | FORMED
deriving DecidableEq, Repr

/-- The combined state: the controller's private refs (pointers,
lastCentroid, lastDistance, lastPrimary) together with the externally
owned signals it writes (pointer, hoverProgress, clickTrigger,
panOffset, rotationBoost, zoomOffset, treeState). -/
structure World where
  pointers : List (Nat × Point)
  lastCentroid : Option Point
  lastDistance : Option ℚ
  lastPrimary : Option (Nat × Point)
  pointer : Option Point
  hoverProgress : ℚ
  clickTrigger : ℚ
  panOffset : Point
  rotationBoost : ℚ
  zoomOffset : ℚ
  treeState : TreeState
deriving DecidableEq, Repr

/-- JS `Map.has`. -/
def mapHas (m : List (Nat × Point)) (k : Nat) : Bool :=
  m.any (fun p => p.1 == k)

/-- JS `Map.set`: update in place if the key exists (keeping insertion
order), otherwise append. -/
def mapSet (m : List (Nat × Point)) (k : Nat) (v : Point) : List (Nat × Point) :=
  if mapHas m k then m.map (fun p => if p.1 == k then (k, v) else p)
  else m ++ [(k, v)]

/-- JS `Map.delete`. -/
def mapDelete (m : List (Nat × Point)) (k : Nat) : List (Nat × Point) :=
  m.filter (fun p => p.1 != k)

/-- `clamp` from InputController.tsx line 4:
Math.min(Math.max(value, min), max). -/
def clamp (value lo hi : ℚ) : ℚ :=
  min (max value lo) hi

/-- `normalize` (line 23): divide by the window dimensions. -/
def normalize (winW winH x y : ℚ) : Point :=
  ⟨x / winW, y / winH⟩

/-- The first two entries of the tracker value list (`pts[0]`, `pts[1]`). -/
def first2 (l : List Point) : Option (Point × Point) :=
  match l with
  | p0 :: p1 :: _ => some (p0, p1)
  | _ => none

/-- Arithmetic-mean centroid of the tracked points (move handler,
lines 56-59). -/
def centroidOf (pts : List Point) : Point :=
  ⟨(pts.map Point.x).sum / (pts.length : ℚ), (pts.map Point.y).sum / (pts.length : ℚ)⟩

/-- `isDragging` (line 46): any mouse button held, or touch pointer. -/
def isDragging (e : PtrEvent) : Prop :=
  e.buttons ≠ 0 ∨ e.pointerType = "touch"

instance (e : PtrEvent) : Decidable (isDragging e) := by
  unfold isDragging
  infer_instance

/-- `handlePointerDown` (lines 25-37). -/
def handlePointerDown (hypot : ℚ → ℚ → ℚ) (winW winH : ℚ) (e : PtrEvent) (w : World) : World :=
  let pointers := mapSet w.pointers e.pointerId ⟨e.clientX, e.clientY⟩
  let w1 := { w with pointers := pointers,
                     lastPrimary := some (e.pointerId, ⟨e.clientX, e.clientY⟩),
                     pointer := some (normalize winW winH e.clientX e.clientY) }
  if pointers.length = 2 then
    match first2 (pointers.map Prod.snd) with
    | some (p0, p1) =>
        { w1 with lastCentroid := some ⟨(p0.x + p1.x) / 2, (p0.y + p1.y) / 2⟩,
                  lastDistance := some (hypot (p0.x - p1.x) (p0.y - p1.y)) }
    | none => w1
  else w1

/-- `handlePointerMove` (lines 39-81). -/
def handlePointerMove (hypot : ℚ → ℚ → ℚ) (winW winH : ℚ) (e : PtrEvent) (w : World) : World :=
  if mapHas w.pointers e.pointerId then
    let pointers := mapSet w.pointers e.pointerId ⟨e.clientX, e.clientY⟩
    let w1 := { w with pointers := pointers,
                       pointer := some (normalize winW winH e.clientX e.clientY) }
    if pointers.length = 1 ∧ isDragging e then
      let dx := match w.lastPrimary with
        | some prev => e.clientX - prev.2.x
        | none => e.movementX
      { w1 with lastPrimary := some (e.pointerId, ⟨e.clientX, e.clientY⟩),
                rotationBoost := clamp (w1.rotationBoost - dx * 0.01) (-3) 3 }
    else if 2 ≤ pointers.length then
      let pts := pointers.map Prod.snd
      let centroid := centroidOf pts
      let w2 :=
        match w1.lastCentroid with
        | some lc =>
            { w1 with panOffset := ⟨clamp (w1.panOffset.x + (centroid.x - lc.x) * 0.02) (-15) 15,
                                    clamp (w1.panOffset.y - (centroid.y - lc.y) * 0.02) (-10) 10⟩ }
        | none => w1
      let w3 := { w2 with lastCentroid := some centroid }
      match first2 pts with
      | some (p0, p1) =>
          let dist := hypot (p0.x - p1.x) (p0.y - p1.y)
          let w4 :=
            match w3.lastDistance with
            | some ld => { w3 with zoomOffset := clamp (w3.zoomOffset - (dist - ld) * 0.01) (-20) 40 }
            | none => w3
          { w4 with lastDistance := some dist }
      | none => w3
    else
      { w1 with lastCentroid := none, lastDistance := none }
  else w

/-- `handlePointerUp` (lines 83-95), also bound to pointercancel. -/
def handlePointerUp (winW winH : ℚ) (e : PtrEvent) (w : World) : World :=
  let pointers := mapDelete w.pointers e.pointerId
  if pointers.length = 0 then
    { w with pointers := pointers, pointer := none,
             lastCentroid := none, lastDistance := none, lastPrimary := none }
  else
    match pointers with
    | (firstId, firstPoint) :: _ =>
        { w with pointers := pointers,
                 pointer := some (normalize winW winH firstPoint.x firstPoint.y),
                 lastPrimary := some (firstId, firstPoint) }
    | [] => { w with pointers := pointers }

/-- `handleWheel` (lines 97-100). -/
def handleWheel (winW winH : ℚ) (clientX clientY deltaY : ℚ) (w : World) : World :=
  { w with pointer := some (normalize winW winH clientX clientY),
           zoomOffset := clamp (w.zoomOffset - deltaY * 0.002) (-20) 40 }

/-- `handleClick` (lines 102-106). `now` stands for Date.now(). -/
def handleClick (winW winH : ℚ) (clientX clientY now : ℚ) (w : World) : World :=
  { w with pointer := some (normalize winW winH clientX clientY),
           clickTrigger := now,
           hoverProgress := 0 }

/-- `handleDoubleClick` (lines 108-110). -/
def handleDoubleClick (w : World) : World :=
  { w with treeState := if w.treeState = TreeState.CHAOS then TreeState.FORMED else TreeState.CHAOS }

/-- One tick of the decay interval (lines 131-139). -/
def decayTick (w : World) : World :=
  { w with rotationBoost := if |w.rotationBoost| < 0.001 then 0 else w.rotationBoost * 0.94 }

/-- The host events the controller subscribes to, plus the decay tick. -/
inductive Event where
  | down (e : PtrEvent)
  | move (e : PtrEvent)
  | up (e : PtrEvent)
  | wheel (clientX clientY deltaY : ℚ)
  | click (clientX clientY now : ℚ)
  | dblclick
  | tick
deriving Repr

/-- Dispatch one event to its handler. -/
def step (hypot : ℚ → ℚ → ℚ) (winW winH : ℚ) (ev : Event) (w : World) : World :=
  match ev with
  | .down e => handlePointerDown hypot winW winH e w
  | .move e => handlePointerMove hypot winW winH e w
  | .up e => handlePointerUp winW winH e w
  | .wheel x y dy => handleWheel winW winH x y dy w
  | .click x y t => handleClick winW winH x y t w
  | .dblclick => handleDoubleClick w
  | .tick => decayTick w

/-- Run a sequence of events in delivery order. -/
def run (hypot : ℚ → ℚ → ℚ) (winW winH : ℚ) (es : List Event) (w : World) : World :=
  es.foldl (fun acc ev => step hypot winW winH ev acc) w

/-- The component's state at mount: empty tracker, no refs, zeroed
accumulators. -/
def initialWorld : World :=
  { pointers := [], lastCentroid := none, lastDistance := none, lastPrimary := none,
    pointer := none, hoverProgress := 0, clickTrigger := 0,
    panOffset := ⟨0, 0⟩, rotationBoost := 0, zoomOffset := 0,
    treeState := TreeState.CHAOS }


/-- A default stand-in for Math.hypot used to instantiate witnesses: it
agrees with the real hypot on axis-aligned pairs and takes an arbitrary
in-range value elsewhere. -/
def hypotW : ℚ → ℚ → ℚ := fun a b => if b = 0 then |a| else 112

/-- The world for the C2 witness: one tracked pointer resting at
x = 300, which is also the single-pointer reference. -/
def wC2 : World :=
  { initialWorld with pointers := [(1, ⟨300, 100⟩)], lastPrimary := some (1, ⟨300, 100⟩) }

/-- The move event for the C2 witness: pointer 1 drags to x = 280 with a
mouse button held. -/
def eC2 : PtrEvent :=
  { pointerId := 1, clientX := 280, clientY := 100, buttons := 1,
    pointerType := "mouse", movementX := 0 }

/-- The world for the C6 witness: two tracked pointers. -/
def wC6 : World := { initialWorld with pointers := [(1, ⟨100, 100⟩), (2, ⟨200, 100⟩)] }

/-- The release event for the C6 witness: pointer 1 lifts. -/
def eC6 : PtrEvent :=
  { pointerId := 1, clientX := 100, clientY := 100, buttons := 0,
    pointerType := "touch", movementX := 0 }

/-- The declared closed intervals of the four accumulators. -/
def accumulatorsInRange (w : World) : Prop :=
  -3 ≤ w.rotationBoost ∧ w.rotationBoost ≤ 3 ∧
  -15 ≤ w.panOffset.x ∧ w.panOffset.x ≤ 15 ∧
  -10 ≤ w.panOffset.y ∧ w.panOffset.y ≤ 10 ∧
  -20 ≤ w.zoomOffset ∧ w.zoomOffset ≤ 40

/-- First touch of the C3 gesture: pointer 1 down at (100,100). -/
def eA : PtrEvent := ⟨1, 100, 100, 0, "touch", 0⟩

/-- Second touch of the C3 gesture: pointer 2 down at (200,100). -/
def eB : PtrEvent := ⟨2, 200, 100, 0, "touch", 0⟩

/-- C3 gesture: pointer 1 moves to (100,50). -/
def eA2 : PtrEvent := ⟨1, 100, 50, 0, "touch", 0⟩

/-- C3 gesture: pointer 2 moves to (250,50). -/
def eB2 : PtrEvent := ⟨2, 250, 50, 0, "touch", 0⟩

/-- The implicit invariant of C10: a non-empty tracker implies a
non-null single-pointer reference. -/
def primaryRefInv (w : World) : Prop := w.pointers ≠ [] → w.lastPrimary ≠ none

end ChristmasTree

namespace ChristmasTree

/-! Helper lemmas shared by the claim theorems. -/

lemma clamp_lower (v lo hi : ℚ) (h : lo ≤ hi) : lo ≤ clamp v lo hi := by
  unfold clamp
  exact le_min (le_max_right v lo) h

lemma clamp_upper (v lo hi : ℚ) : clamp v lo hi ≤ hi := by
  unfold clamp
  exact min_le_right _ _

lemma clamp_eq_self (v lo hi : ℚ) (h1 : lo ≤ v) (h2 : v ≤ hi) : clamp v lo hi = v := by
  unfold clamp
  rw [max_eq_left h1, min_eq_left h2]

lemma run_nil (hypot : ℚ → ℚ → ℚ) (winW winH : ℚ) (w : World) :
    run hypot winW winH [] w = w := rfl

lemma run_cons (hypot : ℚ → ℚ → ℚ) (winW winH : ℚ) (ev : Event) (es : List Event) (w : World) :
    run hypot winW winH (ev :: es) w = run hypot winW winH es (step hypot winW winH ev w) := rfl


end ChristmasTree

namespace ChristmasTree

/-- C7: a pointer-move event whose identifier is not in the tracker is a
complete no-op: the whole world (tracker, all references, and every
external signal) is unchanged. -/
theorem C7_unknown_move_noop (hypot : ℚ → ℚ → ℚ) (winW winH : ℚ) (e : PtrEvent) (w : World)
    (h : mapHas w.pointers e.pointerId = false) :
    handlePointerMove hypot winW winH e w = w := by
  unfold handlePointerMove
  simp [h]

/-- Witness for C7: a move of untracked pointer 9 over a world tracking
only pointer 1 leaves the world unchanged. -/
theorem C7_unknown_move_noop_witness :
    mapHas ({ initialWorld with
        pointers := [(1, ⟨100, 100⟩)] } : World).pointers 9 = false ∧
    handlePointerMove hypotW 800 600
        { pointerId := 9, clientX := 5, clientY := 5, buttons := 1,
          pointerType := "mouse", movementX := 3 }
        { initialWorld with pointers := [(1, ⟨100, 100⟩)] } =
      { initialWorld with pointers := [(1, ⟨100, 100⟩)] } :=
  ⟨by decide, C7_unknown_move_noop hypotW 800 600 _ _ (by decide)⟩

/-- C8: the double-click toggle flips InteractionState to its opposite
named variant, and applying it twice returns the original value. -/
theorem C8_double_click_toggle (w : World) :
    (handleDoubleClick (handleDoubleClick w)).treeState = w.treeState ∧
    (handleDoubleClick w).treeState ≠ w.treeState := by
  cases h : w.treeState <;> simp [handleDoubleClick, h]

/-- C9: a wheel event always emits the normalized pointer signal at the
wheel coordinate and applies -deltaY*0.002 to ZoomOffset clamped to
[-20, 40], with no condition on the pointer tracker; every other piece
of state is unchanged. -/
theorem C9_wheel (winW winH x y dy : ℚ) (w : World) :
    (handleWheel winW winH x y dy w).pointer = some (normalize winW winH x y) ∧
    (handleWheel winW winH x y dy w).zoomOffset = clamp (w.zoomOffset - dy * 0.002) (-20) 40 ∧
    (handleWheel winW winH x y dy w).pointers = w.pointers ∧
    (handleWheel winW winH x y dy w).lastCentroid = w.lastCentroid ∧
    (handleWheel winW winH x y dy w).lastDistance = w.lastDistance ∧
    (handleWheel winW winH x y dy w).lastPrimary = w.lastPrimary ∧
    (handleWheel winW winH x y dy w).hoverProgress = w.hoverProgress ∧
    (handleWheel winW winH x y dy w).clickTrigger = w.clickTrigger ∧
    (handleWheel winW winH x y dy w).panOffset = w.panOffset ∧
    (handleWheel winW winH x y dy w).rotationBoost = w.rotationBoost ∧
    (handleWheel winW winH x y dy w).treeState = w.treeState := by
  unfold handleWheel
  refine ⟨rfl, rfl, rfl, rfl, rfl, rfl, rfl, rfl, rfl, rfl, rfl⟩

end ChristmasTree

namespace ChristmasTree

lemma decayTick_rotationBoost (w : World) :
    (decayTick w).rotationBoost =
      if |w.rotationBoost| < 0.001 then 0 else w.rotationBoost * 0.94 := rfl

lemma decayTick_iterate_pow (n j : ℕ) (w : World)
    (hw : w.rotationBoost = (0.94 : ℚ) ^ j)
    (h : (0.001 : ℚ) ≤ (0.94 : ℚ) ^ (j + n)) :
    (decayTick^[n] w).rotationBoost = (0.94 : ℚ) ^ (j + n) := by
  induction n generalizing j w with
  | zero => simpa using hw
  | succ n ih =>
      have hj : (0.001 : ℚ) ≤ (0.94 : ℚ) ^ j := by
        refine le_trans h ?_
        exact pow_le_pow_of_le_one (by norm_num) (by norm_num) (Nat.le_add_right _ _)
      have hpos : (0 : ℚ) < (0.94 : ℚ) ^ j := pow_pos (by norm_num) _
      have hstep : (decayTick w).rotationBoost = (0.94 : ℚ) ^ (j + 1) := by
        rw [decayTick_rotationBoost, hw, if_neg, pow_succ]
        rw [abs_of_pos hpos]
        exact not_lt.mpr hj
      rw [Function.iterate_succ_apply]
      have := ih (j + 1) (decayTick w) hstep (by rw [show j + 1 + n = j + (n + 1) by omega]; exact h)
      rw [this]
      congr 1
      omega

/-- C4: each decay tick maps RotationBoost v to 0 when |v| < 0.001 and
to v * 0.94 otherwise; 0 is a fixed point of the tick; and starting from
1.0, while the power stays at or above the epsilon, the value after n
ticks is 0.94 ^ n. -/
theorem C4_decay_tick (w : World) (n : ℕ) (hn : (0.001 : ℚ) ≤ (0.94 : ℚ) ^ n) :
    ((decayTick w).rotationBoost =
        if |w.rotationBoost| < 0.001 then 0 else w.rotationBoost * 0.94) ∧
    (w.rotationBoost = 0 → (decayTick w).rotationBoost = 0) ∧
    (w.rotationBoost = 1 → (decayTick^[n] w).rotationBoost = (0.94 : ℚ) ^ n) := by
  refine ⟨decayTick_rotationBoost w, ?_, ?_⟩
  · intro h0
    rw [decayTick_rotationBoost, h0, if_pos]
    norm_num
  · intro h1
    have := decayTick_iterate_pow n 0 w (by simpa using h1) (by simpa using hn)
    simpa using this

/-- Witness for C4: after 5 ticks from RotationBoost = 1 the value is
0.94 ^ 5, every intermediate value being above the 0.001 epsilon. -/
theorem C4_decay_tick_witness :
    (0.001 : ℚ) ≤ (0.94 : ℚ) ^ 5 ∧
    (decayTick^[5] { initialWorld with rotationBoost := 1 }).rotationBoost = (0.94 : ℚ) ^ 5 := by
  have h5 : (0.001 : ℚ) ≤ (0.94 : ℚ) ^ 5 := by norm_num
  exact ⟨h5, (C4_decay_tick { initialWorld with rotationBoost := 1 } 5 h5).2.2 rfl⟩

end ChristmasTree

namespace ChristmasTree

/-- C2: a tracked single-pointer dragging move applies -dx*0.01 to
RotationBoost (dx measured from the previous single-pointer reference,
falling back to the event's raw movementX when no reference exists),
clamped to [-3, 3], and updates the single-pointer reference to the new
position. -/
theorem C2_single_drag (hypot : ℚ → ℚ → ℚ) (winW winH : ℚ) (e : PtrEvent) (w : World)
    (htrack : mapHas w.pointers e.pointerId = true)
    (hone : (mapSet w.pointers e.pointerId ⟨e.clientX, e.clientY⟩).length = 1)
    (hdrag : isDragging e) :
    handlePointerMove hypot winW winH e w =
      { w with
          pointers := mapSet w.pointers e.pointerId ⟨e.clientX, e.clientY⟩,
          pointer := some (normalize winW winH e.clientX e.clientY),
          lastPrimary := some (e.pointerId, ⟨e.clientX, e.clientY⟩),
          rotationBoost :=
            clamp (w.rotationBoost -
              (match w.lastPrimary with
                | some prev => e.clientX - prev.2.x
                | none => e.movementX) * 0.01) (-3) 3 } := by
  unfold handlePointerMove
  simp [htrack, hone, hdrag]



/-- Witness for C2: the spec's example drag from x=300 to x=280 adds
exactly +0.2 to RotationBoost. -/
theorem C2_single_drag_witness :
    mapHas wC2.pointers eC2.pointerId = true ∧
    (mapSet wC2.pointers eC2.pointerId ⟨eC2.clientX, eC2.clientY⟩).length = 1 ∧
    isDragging eC2 ∧
    (handlePointerMove hypotW 800 600 eC2 wC2).rotationBoost = 0.2 := by
  have h := C2_single_drag hypotW 800 600 eC2 wC2 (by decide) (by decide) (by decide)
  refine ⟨by decide, by decide, by decide, ?_⟩
  rw [h]
  norm_num [wC2, eC2, initialWorld, clamp, min_def, max_def]

/-- C6: pointer release with no pointers left clears the pointer signal
and every reference; with pointers left, the first remaining tracker
entry becomes the new single-pointer reference and its normalized
position is re-emitted as the pointer signal. -/
theorem C6_pointer_up (winW winH : ℚ) (e : PtrEvent) (w : World) :
    (mapDelete w.pointers e.pointerId = [] →
      handlePointerUp winW winH e w =
        { w with pointers := [], pointer := none,
                 lastCentroid := none, lastDistance := none, lastPrimary := none }) ∧
    (∀ firstId firstPoint rest,
      mapDelete w.pointers e.pointerId = (firstId, firstPoint) :: rest →
      handlePointerUp winW winH e w =
        { w with pointers := (firstId, firstPoint) :: rest,
                 pointer := some (normalize winW winH firstPoint.x firstPoint.y),
                 lastPrimary := some (firstId, firstPoint) }) := by
  constructor
  · intro h
    unfold handlePointerUp
    rw [h]
    simp
  · intro fid fp rest h
    unfold handlePointerUp
    rw [h]
    simp



/-- Witness for C6: releasing one of two active pointers re-emits the
remaining pointer's normalized position and makes it the new
single-pointer reference. -/
theorem C6_pointer_up_witness :
    mapDelete wC6.pointers eC6.pointerId = [(2, ⟨200, 100⟩)] ∧
    (handlePointerUp 800 600 eC6 wC6).pointer = some (normalize 800 600 200 100) ∧
    (handlePointerUp 800 600 eC6 wC6).lastPrimary = some (2, ⟨200, 100⟩) := by
  have h := (C6_pointer_up 800 600 eC6 wC6).2 2 ⟨200, 100⟩ [] (by decide)
  exact ⟨by decide, by rw [h], by rw [h]⟩

end ChristmasTree

namespace ChristmasTree


lemma handlePointerDown_accums (hypot : ℚ → ℚ → ℚ) (winW winH : ℚ) (e : PtrEvent) (w : World) :
    (handlePointerDown hypot winW winH e w).rotationBoost = w.rotationBoost ∧
    (handlePointerDown hypot winW winH e w).panOffset = w.panOffset ∧
    (handlePointerDown hypot winW winH e w).zoomOffset = w.zoomOffset := by
  unfold handlePointerDown
  dsimp only
  split
  · split <;> exact ⟨rfl, rfl, rfl⟩
  · exact ⟨rfl, rfl, rfl⟩

lemma handlePointerMove_accums (hypot : ℚ → ℚ → ℚ) (winW winH : ℚ) (e : PtrEvent) (w : World) :
    ((handlePointerMove hypot winW winH e w).rotationBoost = w.rotationBoost ∨
      ∃ v, (handlePointerMove hypot winW winH e w).rotationBoost = clamp v (-3) 3) ∧
    ((handlePointerMove hypot winW winH e w).panOffset = w.panOffset ∨
      ∃ vx vy, (handlePointerMove hypot winW winH e w).panOffset =
        ⟨clamp vx (-15) 15, clamp vy (-10) 10⟩) ∧
    ((handlePointerMove hypot winW winH e w).zoomOffset = w.zoomOffset ∨
      ∃ v, (handlePointerMove hypot winW winH e w).zoomOffset = clamp v (-20) 40) := by
  unfold handlePointerMove
  dsimp only
  split
  · split
    · exact ⟨Or.inr ⟨_, rfl⟩, Or.inl rfl, Or.inl rfl⟩
    · split
      · split <;> split <;> try split
        all_goals
          first
          | exact ⟨Or.inl rfl, Or.inl rfl, Or.inl rfl⟩
          | exact ⟨Or.inl rfl, Or.inr ⟨_, _, rfl⟩, Or.inl rfl⟩
          | exact ⟨Or.inl rfl, Or.inr ⟨_, _, rfl⟩, Or.inr ⟨_, rfl⟩⟩
          | exact ⟨Or.inl rfl, Or.inl rfl, Or.inr ⟨_, rfl⟩⟩
      · exact ⟨Or.inl rfl, Or.inl rfl, Or.inl rfl⟩
  · exact ⟨Or.inl rfl, Or.inl rfl, Or.inl rfl⟩

lemma handlePointerUp_accums (winW winH : ℚ) (e : PtrEvent) (w : World) :
    (handlePointerUp winW winH e w).rotationBoost = w.rotationBoost ∧
    (handlePointerUp winW winH e w).panOffset = w.panOffset ∧
    (handlePointerUp winW winH e w).zoomOffset = w.zoomOffset := by
  unfold handlePointerUp
  dsimp only
  split
  · exact ⟨rfl, rfl, rfl⟩
  · split <;> exact ⟨rfl, rfl, rfl⟩

lemma step_preserves_accums (hypot : ℚ → ℚ → ℚ) (winW winH : ℚ) (ev : Event) (w : World)
    (h : accumulatorsInRange w) :
    accumulatorsInRange (step hypot winW winH ev w) := by
  obtain ⟨h1, h2, h3, h4, h5, h6, h7, h8⟩ := h
  cases ev with
  | down e =>
      obtain ⟨hr, hp, hz⟩ := handlePointerDown_accums hypot winW winH e w
      exact ⟨hr ▸ h1, hr ▸ h2, hp ▸ h3, hp ▸ h4, hp ▸ h5, hp ▸ h6, hz ▸ h7, hz ▸ h8⟩
  | move e =>
      obtain ⟨hr, hp, hz⟩ := handlePointerMove_accums hypot winW winH e w
      have hrb : -3 ≤ (handlePointerMove hypot winW winH e w).rotationBoost ∧
          (handlePointerMove hypot winW winH e w).rotationBoost ≤ 3 := by
        rcases hr with hr | ⟨v, hr⟩
        · exact ⟨hr ▸ h1, hr ▸ h2⟩
        · exact ⟨hr ▸ clamp_lower v (-3) 3 (by norm_num), hr ▸ clamp_upper v (-3) 3⟩
      have hpan : (-15 ≤ (handlePointerMove hypot winW winH e w).panOffset.x ∧
          (handlePointerMove hypot winW winH e w).panOffset.x ≤ 15) ∧
          (-10 ≤ (handlePointerMove hypot winW winH e w).panOffset.y ∧
          (handlePointerMove hypot winW winH e w).panOffset.y ≤ 10) := by
        rcases hp with hp | ⟨vx, vy, hp⟩
        · exact ⟨⟨hp ▸ h3, hp ▸ h4⟩, ⟨hp ▸ h5, hp ▸ h6⟩⟩
        · rw [hp]
          exact ⟨⟨clamp_lower vx (-15) 15 (by norm_num), clamp_upper vx (-15) 15⟩,
                 ⟨clamp_lower vy (-10) 10 (by norm_num), clamp_upper vy (-10) 10⟩⟩
      have hzo : -20 ≤ (handlePointerMove hypot winW winH e w).zoomOffset ∧
          (handlePointerMove hypot winW winH e w).zoomOffset ≤ 40 := by
        rcases hz with hz | ⟨v, hz⟩
        · exact ⟨hz ▸ h7, hz ▸ h8⟩
        · exact ⟨hz ▸ clamp_lower v (-20) 40 (by norm_num), hz ▸ clamp_upper v (-20) 40⟩
      exact ⟨hrb.1, hrb.2, hpan.1.1, hpan.1.2, hpan.2.1, hpan.2.2, hzo.1, hzo.2⟩
  | up e =>
      obtain ⟨hr, hp, hz⟩ := handlePointerUp_accums winW winH e w
      exact ⟨hr ▸ h1, hr ▸ h2, hp ▸ h3, hp ▸ h4, hp ▸ h5, hp ▸ h6, hz ▸ h7, hz ▸ h8⟩
  | wheel x y dy =>
      refine ⟨h1, h2, h3, h4, h5, h6, ?_, ?_⟩
      · exact clamp_lower _ (-20) 40 (by norm_num)
      · exact clamp_upper _ (-20) 40
  | click x y t => exact ⟨h1, h2, h3, h4, h5, h6, h7, h8⟩
  | dblclick => exact ⟨h1, h2, h3, h4, h5, h6, h7, h8⟩
  | tick =>
      have ht : -3 ≤ (decayTick w).rotationBoost ∧ (decayTick w).rotationBoost ≤ 3 := by
        rw [decayTick_rotationBoost]
        constructor <;>
          · split
            · norm_num
            · linarith
      exact ⟨ht.1, ht.2, h3, h4, h5, h6, h7, h8⟩

/-- C1: starting from accumulators inside their declared intervals,
no sequence of pointer, wheel, click or decay-tick events can drive
RotationBoost out of [-3, 3], PanOffset.x out of [-15, 15], PanOffset.y
out of [-10, 10], or ZoomOffset out of [-20, 40]. -/
theorem C1_accumulator_bounds (hypot : ℚ → ℚ → ℚ) (winW winH : ℚ) (es : List Event) (w : World)
    (h : accumulatorsInRange w) :
    accumulatorsInRange (run hypot winW winH es w) := by
  induction es generalizing w with
  | nil => exact h
  | cons ev es ih =>
      rw [run_cons]
      exact ih _ (step_preserves_accums hypot winW winH ev w h)

/-- Witness for C1: the initial world is in range and stays in range
under a sample event sequence containing a down, a drag move, a wheel
event and a decay tick. -/
theorem C1_accumulator_bounds_witness :
    accumulatorsInRange initialWorld ∧
    accumulatorsInRange (run hypotW 800 600
      [.down eC6, .move eC2, .wheel 10 10 5, .tick] initialWorld) :=
  ⟨by norm_num [accumulatorsInRange, initialWorld],
   C1_accumulator_bounds hypotW 800 600 _ initialWorld
     (by norm_num [accumulatorsInRange, initialWorld])⟩

end ChristmasTree

namespace ChristmasTree





/-- C3: the two-pointer gesture of the spec. After the second
pointer-down at (100,100) and (200,100) the baseline is
Centroid = (150,100) and PinchDistance = 100; after the two pointers
move to (100,50) and (250,50) the centroid reference is (175,50), the
distance reference 150, and the cumulative effect of the two moves is
PanOffset += (0.5, 1.0) and ZoomOffset += -0.5 (starting from zero, no
clamp binds). Math.hypot values are supplied as hypotheses: the two
axis-aligned distances are exact, and the intermediate distance
hypot(-100,-50) = sqrt(12500) ≈ 111.8 only needs its range. -/
theorem C3_two_pointer_gesture (hypot : ℚ → ℚ → ℚ)
    (h100 : hypot (-100) 0 = 100) (h150 : hypot (-150) 0 = 150)
    (hmidlo : 100 ≤ hypot (-100) (-50)) (hmidhi : hypot (-100) (-50) ≤ 150) :
    (run hypot 800 600 [.down eA, .down eB] initialWorld).lastCentroid = some ⟨150, 100⟩ ∧
    (run hypot 800 600 [.down eA, .down eB] initialWorld).lastDistance = some 100 ∧
    (run hypot 800 600 [.down eA, .down eB, .move eA2, .move eB2] initialWorld).lastCentroid = some ⟨175, 50⟩ ∧
    (run hypot 800 600 [.down eA, .down eB, .move eA2, .move eB2] initialWorld).lastDistance = some 150 ∧
    (run hypot 800 600 [.down eA, .down eB, .move eA2, .move eB2] initialWorld).panOffset = ⟨1/2, 1⟩ ∧
    (run hypot 800 600 [.down eA, .down eB, .move eA2, .move eB2] initialWorld).zoomOffset = -(1/2) := by
  have s12 : run hypot 800 600 [.down eA, .down eB] initialWorld =
      { initialWorld with
          pointers := [(1, ⟨100, 100⟩), (2, ⟨200, 100⟩)],
          lastCentroid := some ⟨150, 100⟩,
          lastDistance := some 100,
          lastPrimary := some (2, ⟨200, 100⟩),
          pointer := some ⟨1/4, 1/6⟩ } := by
    norm_num [run, List.foldl, step, handlePointerDown, mapSet, mapHas, first2,
      ChristmasTree.normalize, eA, eB, initialWorld, h100]
  have s3 : step hypot 800 600 (.move eA2)
      { initialWorld with
          pointers := [(1, ⟨100, 100⟩), (2, ⟨200, 100⟩)],
          lastCentroid := some ⟨150, 100⟩,
          lastDistance := some 100,
          lastPrimary := some (2, ⟨200, 100⟩),
          pointer := some ⟨1/4, 1/6⟩ } =
      { initialWorld with
          pointers := [(1, ⟨100, 50⟩), (2, ⟨200, 100⟩)],
          lastCentroid := some ⟨150, 75⟩,
          lastDistance := some (hypot (-100) (-50)),
          lastPrimary := some (2, ⟨200, 100⟩),
          pointer := some ⟨1/8, 1/12⟩,
          panOffset := ⟨0, 1/2⟩,
          zoomOffset := (100 - hypot (-100) (-50)) / 100 } := by
    have hzsimp : clamp (0 - (hypot (-100) (-50) - 100) * 0.01) (-20) 40 =
        (100 - hypot (-100) (-50)) / 100 := by
      rw [clamp_eq_self _ _ _ (by linarith) (by linarith)]
      ring
    norm_num [step, handlePointerMove, mapSet, mapHas, first2, centroidOf,
      ChristmasTree.normalize, isDragging, eA2, initialWorld, clamp, min_def, max_def] at hzsimp ⊢
    exact hzsimp
  have s4 : step hypot 800 600 (.move eB2)
      { initialWorld with
          pointers := [(1, ⟨100, 50⟩), (2, ⟨200, 100⟩)],
          lastCentroid := some ⟨150, 75⟩,
          lastDistance := some (hypot (-100) (-50)),
          lastPrimary := some (2, ⟨200, 100⟩),
          pointer := some ⟨1/8, 1/12⟩,
          panOffset := ⟨0, 1/2⟩,
          zoomOffset := (100 - hypot (-100) (-50)) / 100 } =
      { initialWorld with
          pointers := [(1, ⟨100, 50⟩), (2, ⟨250, 50⟩)],
          lastCentroid := some ⟨175, 50⟩,
          lastDistance := some 150,
          lastPrimary := some (2, ⟨200, 100⟩),
          pointer := some ⟨5/16, 1/12⟩,
          panOffset := ⟨1/2, 1⟩,
          zoomOffset := -(1/2) } := by
    have hz4 : clamp ((100 - hypot (-100) (-50)) / 100 - (150 - hypot (-100) (-50)) * 0.01) (-20) 40 =
        -(1/2) := by
      have he : (100 - hypot (-100) (-50)) / 100 - (150 - hypot (-100) (-50)) * 0.01 = -(1/2) := by
        ring
      rw [he, clamp_eq_self] <;> norm_num
    norm_num [step, handlePointerMove, mapSet, mapHas, first2, centroidOf,
      ChristmasTree.normalize, isDragging, eB2, initialWorld, clamp, min_def, max_def, h150] at hz4 ⊢
    exact hz4
  have hrun4 : run hypot 800 600 [.down eA, .down eB, .move eA2, .move eB2] initialWorld =
      step hypot 800 600 (.move eB2) (step hypot 800 600 (.move eA2)
        (run hypot 800 600 [.down eA, .down eB] initialWorld)) := by
    simp only [run, List.foldl_cons, List.foldl_nil]
  rw [hrun4, s12, s3, s4]
  exact ⟨rfl, rfl, rfl, rfl, rfl, rfl⟩

/-- Witness for C3: instantiating the abstract hypot with a concrete
function satisfying the hypothesized Math.hypot facts yields the spec's
cumulative pan (0.5, 1.0) and zoom -0.5. -/
theorem C3_two_pointer_gesture_witness :
    hypotW (-100) 0 = 100 ∧ hypotW (-150) 0 = 150 ∧
    (100 : ℚ) ≤ hypotW (-100) (-50) ∧ hypotW (-100) (-50) ≤ 150 ∧
    (run hypotW 800 600 [.down eA, .down eB, .move eA2, .move eB2] initialWorld).panOffset = ⟨1/2, 1⟩ ∧
    (run hypotW 800 600 [.down eA, .down eB, .move eA2, .move eB2] initialWorld).zoomOffset = -(1/2) := by
  have h100 : hypotW (-100) 0 = 100 := by norm_num [hypotW]
  have h150 : hypotW (-150) 0 = 150 := by norm_num [hypotW]
  have hlo : (100 : ℚ) ≤ hypotW (-100) (-50) := by norm_num [hypotW]
  have hhi : hypotW (-100) (-50) ≤ 150 := by norm_num [hypotW]
  obtain ⟨-, -, -, -, hp, hz⟩ := C3_two_pointer_gesture hypotW h100 h150 hlo hhi
  exact ⟨h100, h150, hlo, hhi, hp, hz⟩

end ChristmasTree

namespace ChristmasTree


lemma mapHas_ne_nil (m : List (Nat × Point)) (k : Nat) (h : mapHas m k = true) : m ≠ [] := by
  intro hm
  subst hm
  simp [mapHas] at h

lemma handlePointerDown_lastPrimary (hypot : ℚ → ℚ → ℚ) (winW winH : ℚ) (e : PtrEvent) (w : World) :
    (handlePointerDown hypot winW winH e w).lastPrimary =
      some (e.pointerId, ⟨e.clientX, e.clientY⟩) := by
  unfold handlePointerDown
  dsimp only
  split
  · split <;> rfl
  · rfl

lemma handlePointerDown_pointers (hypot : ℚ → ℚ → ℚ) (winW winH : ℚ) (e : PtrEvent) (w : World) :
    (handlePointerDown hypot winW winH e w).pointers =
      mapSet w.pointers e.pointerId ⟨e.clientX, e.clientY⟩ := by
  unfold handlePointerDown
  dsimp only
  split
  · split <;> rfl
  · rfl

lemma handlePointerMove_primaryRef (hypot : ℚ → ℚ → ℚ) (winW winH : ℚ) (e : PtrEvent) (w : World)
    (h : primaryRefInv w) : primaryRefInv (handlePointerMove hypot winW winH e w) := by
  unfold handlePointerMove
  dsimp only
  split
  case isTrue htrack =>
    have hlp : w.lastPrimary ≠ none := h (mapHas_ne_nil _ _ htrack)
    split
    · intro _
      simp
    · split
      · intro _
        (repeat' split) <;> exact hlp
      · intro _
        exact hlp
  case isFalse htrack => exact h

lemma handlePointerUp_primaryRef (winW winH : ℚ) (e : PtrEvent) (w : World) :
    primaryRefInv (handlePointerUp winW winH e w) := by
  unfold handlePointerUp
  dsimp only
  split
  case isTrue hlen =>
    intro hne
    exact absurd (List.length_eq_zero.mp hlen) hne
  case isFalse hlen =>
    split
    · intro _
      simp
    · intro _
      rename_i heqnil hne2
      exact absurd (by rw [heqnil]; rfl) hlen

lemma step_preserves_primaryRef (hypot : ℚ → ℚ → ℚ) (winW winH : ℚ) (ev : Event) (w : World)
    (h : primaryRefInv w) : primaryRefInv (step hypot winW winH ev w) := by
  cases ev with
  | down e =>
      intro _
      show (handlePointerDown hypot winW winH e w).lastPrimary ≠ none
      rw [handlePointerDown_lastPrimary]
      simp
  | move e => exact handlePointerMove_primaryRef hypot winW winH e w h
  | up e => exact handlePointerUp_primaryRef winW winH e w
  | wheel x y dy => exact h
  | click x y t => exact h
  | dblclick => exact h
  | tick => exact h

/-- C10: from the empty initial state, every reachable world with a
non-empty tracker has a non-null single-pointer reference; hence for any
tracked move event the reference is some value, so the drag branch's
fallback to the event's raw movementX is unreachable. -/
theorem C10_primary_fallback_unreachable (hypot : ℚ → ℚ → ℚ) (winW winH : ℚ) :
    (∀ es : List Event, primaryRefInv (run hypot winW winH es initialWorld)) ∧
    (∀ (w : World) (e : PtrEvent), primaryRefInv w → mapHas w.pointers e.pointerId = true →
      ∃ p, w.lastPrimary = some p) := by
  constructor
  · intro es
    have hrun : ∀ w, primaryRefInv w → primaryRefInv (run hypot winW winH es w) := by
      induction es with
      | nil => exact fun w h => h
      | cons ev es ih =>
          intro w h
          rw [run_cons]
          exact ih _ (step_preserves_primaryRef hypot winW winH ev w h)
    exact hrun initialWorld (fun hne => absurd rfl hne)
  · intro w e h hhas
    have hlp := h (mapHas_ne_nil _ _ hhas)
    cases hsome : w.lastPrimary with
    | none => exact absurd hsome hlp
    | some p => exact ⟨p, rfl⟩

/-- Witness for C10: after one pointer-down the tracker is non-empty
and the single-pointer reference is non-null, and a world tracking one
pointer with its reference set yields a concrete reference value. -/
theorem C10_primary_fallback_unreachable_witness :
    (run hypotW 800 600 [.down eA] initialWorld).lastPrimary ≠ none ∧
    ∃ p, wC2.lastPrimary = some p :=
  ⟨(C10_primary_fallback_unreachable hypotW 800 600).1 [.down eA] (by decide),
   (C10_primary_fallback_unreachable hypotW 800 600).2 wC2 eC2 (by intro h; decide) (by decide)⟩

/-- Counterexample for C5: a pointer-up that takes the tracker from two
pointers to one does NOT reset the Centroid and PinchDistance
references: after down(1), down(2), up(2) exactly one pointer remains
but both references are still set. -/
theorem C5_counterexample :
    (run hypotW 800 600 [.down eA, .down eB, .up eB] initialWorld).pointers.length = 1 ∧
    (run hypotW 800 600 [.down eA, .down eB, .up eB] initialWorld).lastCentroid ≠ none ∧
    (run hypotW 800 600 [.down eA, .down eB, .up eB] initialWorld).lastDistance ≠ none := by
  norm_num [run, List.foldl, step, handlePointerDown, handlePointerUp, mapSet, mapHas,
    mapDelete, first2, ChristmasTree.normalize, eA, eB, initialWorld, hypotW]
  decide

lemma mapSet_length (m : List (Nat × Point)) (k : Nat) (v : Point) :
    (mapSet m k v).length = if mapHas m k then m.length else m.length + 1 := by
  unfold mapSet
  split
  · simp
  · simp

/-- C5 as amended: a pointer-up that empties the tracker resets the
Centroid and PinchDistance references to undefined; a pointer-up that
leaves the tracker non-empty leaves both references untouched. However,
a pointer-down grows the tracker by at most one entry, and any
pointer-down that results in exactly two tracked pointers re-initializes
both references from the current two samples, so a reference that
survived a drop below two pointers is overwritten before any
multi-pointer move could use it. -/
theorem C5_reference_reset (hypot : ℚ → ℚ → ℚ) (winW winH : ℚ) (e : PtrEvent) (w : World) :
    (mapDelete w.pointers e.pointerId = [] →
      (handlePointerUp winW winH e w).lastCentroid = none ∧
      (handlePointerUp winW winH e w).lastDistance = none) ∧
    (mapDelete w.pointers e.pointerId ≠ [] →
      (handlePointerUp winW winH e w).lastCentroid = w.lastCentroid ∧
      (handlePointerUp winW winH e w).lastDistance = w.lastDistance) ∧
    ((handlePointerDown hypot winW winH e w).pointers.length ≤ w.pointers.length + 1) ∧
    ((handlePointerDown hypot winW winH e w).pointers.length = 2 →
      ∃ p0 p1,
        first2 ((handlePointerDown hypot winW winH e w).pointers.map Prod.snd) = some (p0, p1) ∧
        (handlePointerDown hypot winW winH e w).lastCentroid =
          some ⟨(p0.x + p1.x) / 2, (p0.y + p1.y) / 2⟩ ∧
        (handlePointerDown hypot winW winH e w).lastDistance =
          some (hypot (p0.x - p1.x) (p0.y - p1.y))) := by
  refine ⟨?_, ?_, ?_, ?_⟩
  · intro h
    unfold handlePointerUp
    rw [h]
    simp
  · intro h
    unfold handlePointerUp
    dsimp only
    split
    case isTrue hlen => exact absurd (List.length_eq_zero.mp hlen) h
    case isFalse hlen =>
      split
      · exact ⟨rfl, rfl⟩
      · exact ⟨rfl, rfl⟩
  · rw [handlePointerDown_pointers, mapSet_length]
    split
    · exact Nat.le_succ _
    · exact le_refl _
  · intro h2
    rw [handlePointerDown_pointers, mapSet_length] at h2
    have hlen2 : (mapSet w.pointers e.pointerId ⟨e.clientX, e.clientY⟩).length = 2 := by
      rw [mapSet_length]
      exact h2
    obtain ⟨a, b, hab⟩ := List.length_eq_two.mp hlen2
    refine ⟨a.2, b.2, ?_, ?_, ?_⟩
    · rw [handlePointerDown_pointers, hab]
      rfl
    · unfold handlePointerDown
      dsimp only
      rw [hab]
      simp [first2]
    · unfold handlePointerDown
      dsimp only
      rw [hab]
      simp [first2]

/-- Witness for C5: releasing the only tracked pointer clears both
references. -/
theorem C5_reference_reset_witness :
    mapDelete wC2.pointers eC2.pointerId = [] ∧
    (handlePointerUp 800 600 eC2 wC2).lastCentroid = none ∧
    (handlePointerUp 800 600 eC2 wC2).lastDistance = none :=
  ⟨by decide, ((C5_reference_reset hypotW 800 600 eC2 wC2).1 (by decide)).1,
   ((C5_reference_reset hypotW 800 600 eC2 wC2).1 (by decide)).2⟩

end ChristmasTree
